import Mathlib

/-!
Verification of the profile loading and launch-argument building code of
`shadowsocks-gtk-rs`.

The embedding covers two Rust modules:
* `src/bin/ssgtk/io/profile_loader.rs` — the profile tree loader
  (`ProfileFolder`), its error type, the launch-argument builder
  (`ProxyOptions::to_launch_args`) and the tree queries
  (`profile_count`, `get_profiles`, `lookup`).
* `src/io/config_loader.rs` — the older configuration loader
  (`ConfigFolder`), `ConfigProfileSerde::try_into` and its error type.

Modelling conventions:
* Machine strings and paths are Lean `String`s; ports (Rust `u16`) are `Nat`
  (only their decimal rendering is used).
* IP addresses carry their rendered `Display` form: `IpAddr.V4 h` / `V6 h`
  where `h` is the host text (Rust's `Display` for `Ipv4Addr`/`Ipv6Addr`).
* `str::parse::<Ipv6Addr>` on the server host is abstracted as a Boolean
  predicate passed in as a parameter; the claims only depend on its outcome.
* YAML parsing (`serde_yaml::from_str`), executable lookup (`which`) and the
  lazily resolved default binary are abstracted as an environment record of
  functions, mirroring the spec's treatment of them as primitives.
* The filesystem is a value of the inductive type `Dir`: a directory name,
  the regular files it directly contains (name, content) and its
  subdirectories.  `canonicalize` is the identity on the already-canonical
  paths supplied by the model, and I/O never fails inside the model.
* The `&mut Vec<String>` of seen names is threaded by value: each call
  receives the current list and returns the updated one.  Errors abort the
  whole profile-loader traversal in the source, so the state lost on the
  error path is never observed.
-/

/-! ## Filesystem model -/

/-- A directory: its final path component, the regular files it directly
contains as (file name, file content) pairs, and its subdirectories. -/
inductive Dir : Type where
  | mk : String → List (String × String) → List Dir → Dir

/-- Final path component of the directory (Rust `path.file_name()`). -/
def Dir.name : Dir → String
  | .mk n _ _ => n

/-- The regular files directly contained in the directory. -/
def Dir.files : Dir → List (String × String)
  | .mk _ fs _ => fs

/-- The subdirectories directly contained in the directory. -/
def Dir.subdirs : Dir → List Dir
  | .mk _ _ ds => ds

/-- Models `path.join(fname).is_file()` plus `read_to_string`: the content of
the directly contained regular file named `fname`, if any. -/
def Dir.find_file (d : Dir) (fname : String) : Option String :=
  (d.files.find? (fun f => f.1 == fname)).map (fun f => f.2)

/-- A path is absolute (Unix `Path::is_absolute`) when it starts with the
root separator. -/
def is_absolute_path (p : String) : Bool :=
  match p.data with
  | [] => false
  | c :: _ => c == '/'

/-- Models `PathBuf::push`: an absolute component replaces the base path. -/
def path_push (base p : String) : String :=
  if is_absolute_path p then p else base ++ "/" ++ p

/-! ## profile_loader.rs: constants and configuration types -/

/-- The existence of this file in a directory marks the directory as ignored
during the loading process. -/
def LOAD_IGNORE_FILE_NAME : String := ".ss_ignore"

/-- The existence of this file in a directory indicates that this directory
is a launch profile. -/
def CONFIG_FILE_NAME : String := "profile.yaml"

/-- Optional fields which allow a config to override its profile's default
metadata (struct `MetadataOverride`). -/
structure MetadataOverride where
  display_name : Option String
  pwd : Option String
  bin_path : Option String

/-- Fields for a "Config file"-type `ProfileConfig`. -/
structure ConfigFileOptions where
  config_path : String
  extra_args : Option (List String)

/-- Rust `IpAddr`, carrying the `Display` rendering of the address. -/
inductive IpAddr : Type where
  | V4 : String → IpAddr
  | V6 : String → IpAddr

/-- Fields for a "Proxy"-type `ProfileConfig`. -/
structure ProxyOptions where
  local_addr : IpAddr × Nat
  server_addr : String × Nat
  password : String
  encrypt_method : String
  extra_args : Option (List String)

/-- The static configuration for a profile (enum `ProfileConfig`; the `Tun`
variant is behind the off-by-default `tun-protocol` feature and omitted). -/
inductive ProfileConfig : Type where
  | ConfigFile : MetadataOverride → ConfigFileOptions → ProfileConfig
  | Proxy : MetadataOverride → ProxyOptions → ProfileConfig

/-- `ProfileConfig::get_metadata_override`. -/
def ProfileConfig.get_metadata_override : ProfileConfig → MetadataOverride
  | .ConfigFile metadata _ => metadata
  | .Proxy metadata _ => metadata

/-! ## Launch-argument builder (`ProxyOptions::to_launch_args`)

The argument `ipv6_ok` models `a.parse::<Ipv6Addr>().is_ok()`: whether the
server host string parses as a literal IPv6 address. -/

/-- Translation of `ProxyOptions::to_launch_args`, following the source's
sequence of `extend` steps. -/
def ProxyOptions.to_launch_args (ipv6_ok : String → Bool) (o : ProxyOptions) :
    List String :=
  let args : List String := []
  -- local address
  let local_addr :=
    match o.local_addr with
    | (IpAddr.V4 v4, p) => v4 ++ ":" ++ toString p
    | (IpAddr.V6 v6, p) => "[" ++ v6 ++ "]:" ++ toString p
  let args := args ++ ["--local-addr", local_addr]
  -- server address
  let server_addr :=
    let a := o.server_addr.1
    let p := o.server_addr.2
    if ipv6_ok a then "[" ++ a ++ "]:" ++ toString p
    else a ++ ":" ++ toString p
  let args := args ++ ["--server-addr", server_addr]
  -- password
  let args := args ++ ["--password", o.password]
  -- encrypt_method
  let args := args ++ ["--encrypt-method", o.encrypt_method]
  -- extra args
  match o.extra_args with
  | some extra => args ++ extra
  | none => args

/-! ## Debug rendering of `ProxyOptions` (derivative `Debug` with
`password_omit` on the password field) -/

/-- Helper function for `derivative(Debug)`: the fixed placeholder written in
place of the password. -/
def password_omit : String := "*hidden*"

/-- Rust `Debug` for a string: quoted. -/
def debug_str (s : String) : String := "\"" ++ s ++ "\""

/-- Rust `Debug` for `IpAddr` (same as `Display` for IP addresses). -/
def IpAddr.debug_fmt : IpAddr → String
  | .V4 h => h
  | .V6 h => h

/-- Rust `Debug` for `Option<Vec<String>>`. -/
def debug_opt_vec : Option (List String) → String
  | none => "None"
  | some xs => "Some([" ++ String.intercalate ", " (xs.map debug_str) ++ "])"

/-- The derived `Debug` rendering of `ProxyOptions`: every field is printed
with its `Debug` form, except `password`, which `derivative` formats through
`password_omit`. -/
def ProxyOptions.fmt_debug (o : ProxyOptions) : String :=
  "ProxyOptions \x7b local_addr: (" ++ o.local_addr.1.debug_fmt ++ ", "
    ++ toString o.local_addr.2
    ++ "), server_addr: (" ++ debug_str o.server_addr.1 ++ ", "
    ++ toString o.server_addr.2
    ++ "), password: " ++ password_omit
    ++ ", encrypt_method: " ++ debug_str o.encrypt_method
    ++ ", extra_args: " ++ debug_opt_vec o.extra_args ++ " \x7d"

/-! ## Profile tree (`ProfileFolder`) and its queries -/

/-- Dynamically generated and patched metadata for a profile
(struct `ProfileMetadata`). -/
structure ProfileMetadata where
  display_name : String
  pwd : String
  bin_path : String

/-- A complete `sslocal` launch profile (struct `Profile`). -/
structure Profile where
  metadata : ProfileMetadata
  config : ProfileConfig

mutual

/-- Enum `ProfileFolder`: a single profile or a group. -/
inductive ProfileFolder : Type where
  | Profile : Profile → ProfileFolder
  | Group : ProfileGroup → ProfileFolder

/-- A group containing multiple profiles and/or subgroups
(struct `ProfileGroup`). -/
inductive ProfileGroup : Type where
  | mk : String → List ProfileFolder → ProfileGroup

end

/-- The `display_name` field of a `ProfileGroup`. -/
def ProfileGroup.display_name : ProfileGroup → String
  | .mk n _ => n

/-- The `content` field of a `ProfileGroup`. -/
def ProfileGroup.content : ProfileGroup → List ProfileFolder
  | .mk _ c => c

mutual

/-- `ProfileFolder::profile_count`: recursively count the nested profiles. -/
def ProfileFolder.profile_count : ProfileFolder → Nat
  | .Profile _ => 1
  | .Group (.mk _ content) => profile_count_list content

/-- The `iter().map(profile_count).sum()` over a group's children. -/
def profile_count_list : List ProfileFolder → Nat
  | [] => 0
  | pf :: rest => pf.profile_count + profile_count_list rest

end

mutual

/-- `ProfileFolder::get_profiles`: all nested profiles, flattened in
depth-first, left-to-right order. -/
def ProfileFolder.get_profiles : ProfileFolder → List Profile
  | .Profile p => [p]
  | .Group (.mk _ content) => get_profiles_list content

/-- The `iter().flat_map(get_profiles)` over a group's children. -/
def get_profiles_list : List ProfileFolder → List Profile
  | [] => []
  | pf :: rest => pf.get_profiles ++ get_profiles_list rest

end

mutual

/-- `ProfileFolder::lookup`: depth-first search for the first profile whose
display name equals the query. -/
def ProfileFolder.lookup : ProfileFolder → String → Option Profile
  | .Profile p, name => if p.metadata.display_name == name then some p else none
  | .Group (.mk _ content), name => lookup_list content name

/-- The `iter().find_map(lookup)` over a group's children. -/
def lookup_list : List ProfileFolder → String → Option Profile
  | [], _ => none
  | pf :: rest, name =>
    match pf.lookup name with
    | some p => some p
    | none => lookup_list rest name

end

/-! ## Profile loader (`ProfileFolder::from_path_recurse`) -/

/-- Typed errors of the profile loader (enum `ProfileLoadError`).  The
payloads of `ConfigParseError`, `BadBinary` and `IOError` (foreign error
types in the source) are modelled by their messages. -/
inductive ProfileLoadError : Type where
  | NotDirectory : String → ProfileLoadError
  | ConfigParseError : String → ProfileLoadError
  | BadBinary : String → ProfileLoadError
  | NameConflict : String → ProfileLoadError
  | NoConfigFile : String → ProfileLoadError
  | EmptyGroup : String → ProfileLoadError
  | IOError : String → ProfileLoadError

/-- The external primitives used by the profile loader: `serde_yaml::from_str`
into `ProfileConfig`, `which::which`, and the lazily resolved default
`sslocal` binary (`SSLOCAL_DEFAULT_RESOLVED`). -/
structure LoaderEnv where
  parse_config : String → Except String ProfileConfig
  which_fn : String → Except String String
  sslocal_default_resolved : Except String String

mutual

/-- Translation of `ProfileFolder::from_path_recurse_impl`.  `path` is the
canonical path of `d` (`canonicalize` is the identity in the model, and the
model's directories always satisfy `is_dir`).  Returns `(none, seen)` when
the directory is ignored. -/
def ProfileFolder.from_path_recurse_impl (env : LoaderEnv) (path : String) :
    Dir → List String → Except ProfileLoadError (Option ProfileFolder × List String)
  | .mk dname files subdirs, seen =>
    let d : Dir := .mk dname files subdirs
    -- make sure directory doesn't contain the ignore file
    if (d.find_file LOAD_IGNORE_FILE_NAME).isSome then .ok (none, seen)
    else
      -- use directory name as folder's display name
      let display_name := dname
      -- if directory contains the config file, then consider it a profile
      match d.find_file CONFIG_FILE_NAME with
      | some content =>
        match env.parse_config content with
        | .error e => .error (.ConfigParseError e)
        | .ok config =>
          let mo := config.get_metadata_override
          let display_name := mo.display_name.getD display_name
          if seen.contains display_name then .error (.NameConflict display_name)
          else
            let seen := seen ++ [display_name]
            let pwd := mo.pwd.getD path
            match (match mo.bin_path with
                   | some p => env.which_fn p
                   | none => env.sslocal_default_resolved) with
            | .error e => .error (.BadBinary e)
            | .ok bin_path =>
              .ok (some (.Profile ⟨⟨display_name, pwd, bin_path⟩, config⟩), seen)
      | none =>
        -- otherwise, check if it contains files at all
        if !files.isEmpty then .error (.NoConfigFile path)
        else
          -- otherwise, consider it a group
          match load_subdirs_impl env path subdirs seen with
          | .error e => .error e
          | .ok (sub, seen2) =>
            if sub.isEmpty then .error (.EmptyGroup path)
            else .ok (some (.Group (.mk display_name sub)), seen2)

/-- The `for ent_res in path.read_dir()` loop of the group branch: load each
subdirectory in enumeration order, keep produced nodes, skip ignored ones,
and propagate the first error immediately. -/
def load_subdirs_impl (env : LoaderEnv) (path : String) :
    List Dir → List String → Except ProfileLoadError (List ProfileFolder × List String)
  | [], seen => .ok ([], seen)
  | d :: ds, seen =>
    match ProfileFolder.from_path_recurse_impl env (path ++ "/" ++ d.name) d seen with
    | .ok (some cf, seen2) =>
      match load_subdirs_impl env path ds seen2 with
      | .error e => .error e
      | .ok (rest, seen3) => .ok (cf :: rest, seen3)
    | .ok (none, seen2) => load_subdirs_impl env path ds seen2
    | .error e => .error e

end

/-- Translation of `ProfileFolder::from_path_recurse`: start with an empty
seen-names list and turn an ignored root into `EmptyGroup`. -/
def ProfileFolder.from_path_recurse (env : LoaderEnv) (path : String) (d : Dir) :
    Except ProfileLoadError ProfileFolder :=
  let seen_names : List String := []
  match ProfileFolder.from_path_recurse_impl env path d seen_names with
  | .error e => .error e
  | .ok (some pf, _) => .ok pf
  | .ok (none, _) => .error (.EmptyGroup path)

/-- The display names of all profiles of a tree, in depth-first order. -/
def ProfileFolder.profile_names (t : ProfileFolder) : List String :=
  t.get_profiles.map (fun p => p.metadata.display_name)

/-- The display names contributed by an optional tree (`[]` for an ignored
directory). -/
def option_names : Option ProfileFolder → List String
  | none => []
  | some pf => pf.profile_names

/-- The display names of all profiles of a forest, in depth-first order. -/
def flat_names (ts : List ProfileFolder) : List String :=
  (get_profiles_list ts).map (fun p => p.metadata.display_name)

mutual

/-- Every `Group` node of the tree has a non-empty children sequence. -/
def ProfileFolder.groups_nonempty : ProfileFolder → Bool
  | .Profile _ => true
  | .Group (.mk _ content) => !content.isEmpty && groups_nonempty_list content

/-- `groups_nonempty` over a forest. -/
def groups_nonempty_list : List ProfileFolder → Bool
  | [] => true
  | pf :: rest => pf.groups_nonempty && groups_nonempty_list rest

end

/-! ## config_loader.rs: the older configuration loader (`ConfigFolder`) -/

/-- The default path of the `sslocal` binary, if not defined by profile. -/
def SSLOCAL_DEFAULT_PATH : String := "sslocal"

/-- The existence of this file in a directory indicates that this directory
is a connection profile. -/
def PROFILE_DEF_FILE_NAME : String := "profile.yaml"

/-- Struct `ConfigProfileSerde`: the raw parsed profile document. -/
structure ConfigProfileSerde where
  display_name : Option String
  pwd : Option String
  ss_bin_path : Option String
  ss_config_path : Option String
  extra_args : Option (List String)

/-- Struct `ConfigProfile`: the resolved profile. -/
structure ConfigProfile where
  display_name : String
  pwd : String
  ss_bin_path : String
  ss_config_path : Option String
  extra_args : Option (List String)

/-- `ConfigProfileSerde`'s `TryInto<ConfigProfile>` implementation: the three
required fields are demanded in source order via `ok_or`. -/
def ConfigProfileSerde.try_into (s : ConfigProfileSerde) :
    Except String ConfigProfile :=
  match s.display_name with
  | none => .error "display_name not set"
  | some display_name =>
    match s.pwd with
    | none => .error "pwd not set"
    | some pwd =>
      match s.ss_bin_path with
      | none => .error "ss_bin_path not set"
      | some ss_bin_path =>
        .ok ⟨display_name, pwd, ss_bin_path, s.ss_config_path, s.extra_args⟩

/-- Typed errors of the configuration loader (enum `ConfigLoadError`).  The
extra case `UnwrapFailure` models the panic of the `.unwrap()` on the
`try_into` result in `ConfigFolder::from_path_recurse`; the loader is proved
never to produce it. -/
inductive ConfigLoadError : Type where
  | NotDirectory : String → ConfigLoadError
  | ProfileParseError : String → ConfigLoadError
  | NoProfileDef : String → ConfigLoadError
  | EmptyGroup : String → ConfigLoadError
  | IOError : String → ConfigLoadError
  | UnwrapFailure : String → ConfigLoadError

mutual

/-- Enum `ConfigFolder`: a single profile or a group. -/
inductive ConfigFolder : Type where
  | Profile : ConfigProfile → ConfigFolder
  | Group : ConfigGroup → ConfigFolder

/-- Struct `ConfigGroup`. -/
inductive ConfigGroup : Type where
  | mk : String → List ConfigFolder → ConfigGroup

end

/-- The external primitive used by the configuration loader:
`serde_yaml::from_str` into `ConfigProfileSerde`. -/
structure CfgLoaderEnv where
  parse_serde : String → Except String ConfigProfileSerde

mutual

/-- Translation of `ConfigFolder::from_path_recurse`.  `path` is the
canonical path of `d`.  Note this loader keeps no seen-names state, and its
group branch logs and skips failing children instead of propagating. -/
def ConfigFolder.from_path_recurse (env : CfgLoaderEnv) (path : String) :
    Dir → Except ConfigLoadError ConfigFolder
  | .mk dname files subdirs =>
    let d : Dir := .mk dname files subdirs
    -- use directory name as folder's display name
    let display_name := dname
    -- if directory contains the profile definition file, consider it a profile
    match d.find_file PROFILE_DEF_FILE_NAME with
    | some content =>
      match env.parse_serde content with
      | .error e => .error (.ProfileParseError e)
      | .ok profile =>
        -- use directory name as default display name
        let profile := { profile with
          display_name := some (profile.display_name.getD display_name) }
        -- set pwd correctly (relative overrides are pushed onto the profile path)
        let profile := { profile with
          pwd := some (match profile.pwd with
            | none => path
            | some p => path_push path p) }
        -- set default binary path
        let profile := { profile with
          ss_bin_path := some (profile.ss_bin_path.getD SSLOCAL_DEFAULT_PATH) }
        match profile.try_into with
        | .ok cp => .ok (.Profile cp)
        | .error e => .error (.UnwrapFailure e)
    | none =>
      -- otherwise, check if it contains files at all
      if !files.isEmpty then .error (.NoProfileDef path)
      else
        -- otherwise, consider it a group
        let sub := ConfigFolder.load_subdirs env path subdirs
        if sub.isEmpty then .error (.EmptyGroup path)
        else .ok (.Group (.mk display_name sub))

/-- The group loop of `ConfigFolder::from_path_recurse`: failing children
are logged (`warn!`) and skipped, successful ones collected in order. -/
def ConfigFolder.load_subdirs (env : CfgLoaderEnv) (path : String) :
    List Dir → List ConfigFolder
  | [] => []
  | d :: ds =>
    match ConfigFolder.from_path_recurse env (path ++ "/" ++ d.name) d with
    | .ok cf => cf :: ConfigFolder.load_subdirs env path ds
    | .error _ => ConfigFolder.load_subdirs env path ds

end

/-- Whether a loader outcome is the modelled `.unwrap()` panic. -/
def is_unwrap_failure : Except ConfigLoadError ConfigFolder → Bool
  | .error (.UnwrapFailure _) => true
  | _ => false

/-- Whether an `Except` value is `ok`. -/
def except_is_ok {ε α : Type} : Except ε α → Bool
  | .ok _ => true
  | .error _ => false

/-! ## Claim C2: global display-name uniqueness -/

/-- Concrete environment and tree for the C2 witness. -/
def C2W_configA : ProfileConfig := .ConfigFile ⟨some "alpha", none, none⟩ ⟨"c.json", none⟩

/-- Second concrete profile config for the C2 witness. -/
def C2W_configB : ProfileConfig := .ConfigFile ⟨some "beta", none, none⟩ ⟨"c.json", none⟩

/-- Loader environment for the C2 witness. -/
def C2W_env : LoaderEnv :=
  ⟨fun s => if s == "pa" then .ok C2W_configA
    else if s == "pb" then .ok C2W_configB else .error "parse",
   fun p => .ok p, .ok "/usr/bin/sslocal"⟩

/-- First profile directory for the C2 witness. -/
def C2W_dirA : Dir := .mk "a" [("profile.yaml", "pa")] []

/-- Second profile directory for the C2 witness. -/
def C2W_dirB : Dir := .mk "b" [("profile.yaml", "pb")] []

/-- Root directory for the C2 witness. -/
def C2W_root : Dir := .mk "root" [] [C2W_dirA, C2W_dirB]

/-- The tree produced by loading `C2W_root`. -/
def C2W_tree : ProfileFolder := .Group (.mk "root"
  [.Profile ⟨⟨"alpha", "/cfg/root/a", "/usr/bin/sslocal"⟩, C2W_configA⟩,
   .Profile ⟨⟨"beta", "/cfg/root/b", "/usr/bin/sslocal"⟩, C2W_configB⟩])

/-! ## Claim C3: error propagation during group construction -/

/-- Environment for the C3 counterexample: every document parses to an
all-default profile. -/
def C3X_env : CfgLoaderEnv := ⟨fun _ => .ok ⟨none, none, none, none, none⟩⟩

/-- A loadable profile directory. -/
def C3X_good : Dir := .mk "good" [("profile.yaml", "y")] []

/-- A directory with a stray file and no profile marker: loading it fails. -/
def C3X_bad : Dir := .mk "bad" [("junk", "j")] []

/-- A group directory containing one good and one failing child. -/
def C3X_root : Dir := .mk "root" [] [C3X_good, C3X_bad]

/-- Environment for the C3 witness: every document fails to parse. -/
def C3W_env : LoaderEnv :=
  ⟨fun _ => .error "bad", fun p => .ok p, .ok "/usr/bin/sslocal"⟩

/-- A profile directory whose document fails to parse. -/
def C3W_bad : Dir := .mk "x" [("profile.yaml", "z")] []

/-- A sibling directory after the failing one. -/
def C3W_post : Dir := .mk "y" [("profile.yaml", "z")] []

/-! ## Claim C4: directory classification precedence -/

/-- Profile config for the C4 witness. -/
def C4W_config : ProfileConfig := .ConfigFile ⟨none, none, none⟩ ⟨"c.json", none⟩

/-- Loader environment for the C4 witness. -/
def C4W_env : LoaderEnv :=
  ⟨fun s => if s == "pa" then .ok C4W_config else .error "parse",
   fun p => .ok p, .ok "/usr/bin/sslocal"⟩

/-- A directory with both an ignore marker and a profile marker. -/
def C4W_ign : Dir := .mk "i" [(".ss_ignore", "x"), ("profile.yaml", "pa")] []

/-- A profile directory that also contains another regular file. -/
def C4W_prof : Dir := .mk "p" [("profile.yaml", "pa"), ("other.txt", "t")] []

/-- A directory with a stray file and no marker. -/
def C4W_nocfg : Dir := .mk "n" [("stray", "s")] []

/-- A directory with no files and one profile subdirectory. -/
def C4W_grp : Dir := .mk "g" [] [.mk "p" [("profile.yaml", "pa")] []]

/-- The profile node produced by loading `C4W_prof` at path `/t/p`. -/
def C4W_prof_result : ProfileFolder :=
  .Profile ⟨⟨"p", "/t/p", "/usr/bin/sslocal"⟩, C4W_config⟩

/-- The group node produced by loading `C4W_grp` at path `/t/g`. -/
def C4W_grp_result : ProfileFolder :=
  .Group (.mk "g" [.Profile ⟨⟨"p", "/t/g/p", "/usr/bin/sslocal"⟩, C4W_config⟩])

/-! ## Claim C5: empty groups are errors -/

/-- Profile config for the C5 witness. -/
def C5W_config : ProfileConfig := .ConfigFile ⟨none, none, none⟩ ⟨"c.json", none⟩

/-- Loader environment for the C5 witness. -/
def C5W_env : LoaderEnv :=
  ⟨fun _ => .ok C5W_config, fun p => .ok p, .ok "/usr/bin/sslocal"⟩

/-- A directory containing only an ignore marker. -/
def C5W_ign : Dir := .mk "skip" [(".ss_ignore", "x")] []

/-! ## Claim C6: working-directory resolution -/

/-- Config with a relative pwd override, for the C6 counterexample. -/
def C6X_config : ProfileConfig := .ConfigFile ⟨none, some "rel", none⟩ ⟨"c.json", none⟩

/-- Loader environment for the C6 counterexample. -/
def C6X_env : LoaderEnv :=
  ⟨fun _ => .ok C6X_config, fun p => .ok p, .ok "/usr/bin/sslocal"⟩

/-- A profile directory whose document overrides pwd with a relative path. -/
def C6X_dir : Dir := .mk "prof" [("profile.yaml", "x")] []

/-- Config with an absolute pwd override, for the C6 witness. -/
def C6W_config : ProfileConfig := .ConfigFile ⟨none, some "/data", none⟩ ⟨"c.json", none⟩

/-- Profile-loader environment for the C6 witness. -/
def C6W_env : LoaderEnv :=
  ⟨fun _ => .ok C6W_config, fun p => .ok p, .ok "/usr/bin/sslocal"⟩

/-- Profile directory for the C6 witness. -/
def C6W_dir : Dir := .mk "d" [("profile.yaml", "x")] []

/-- The profile produced by loading `C6W_dir` at `/pf/d`. -/
def C6W_p : Profile := ⟨⟨"d", "/data", "/usr/bin/sslocal"⟩, C6W_config⟩

/-- Parsed document with a relative pwd override, for the C6 witness. -/
def C6W_serde : ConfigProfileSerde := ⟨none, some "rel", none, none, none⟩

/-- Config-loader environment for the C6 witness. -/
def C6W_cenv : CfgLoaderEnv := ⟨fun _ => .ok C6W_serde⟩

/-- Profile directory for the config-loader half of the C6 witness. -/
def C6W_cdir : Dir := .mk "c" [("profile.yaml", "s")] []

/-- The profile produced by loading `C6W_cdir` at `/cl/c`. -/
def C6W_cp : ConfigProfile := ⟨"c", "/cl/c/rel", "sslocal", none, none⟩

/-- C1: for every proxy-mode configuration and every outcome of the IPv6
literal test on the server host, `to_launch_args` returns exactly
`--local-addr L --server-addr S --password pw --encrypt-method m` followed by
the extra arguments in source order, where `L` brackets the host exactly when
the local address is IPv6 and `S` brackets the host exactly when it parses as
a literal IPv6 address. -/
theorem C1_proxy_to_launch_args (ipv6_ok : String → Bool) (o : ProxyOptions) :
    o.to_launch_args ipv6_ok =
      ["--local-addr",
        (match o.local_addr with
         | (IpAddr.V4 h, p) => h ++ ":" ++ toString p
         | (IpAddr.V6 h, p) => "[" ++ h ++ "]:" ++ toString p),
       "--server-addr",
        (if ipv6_ok o.server_addr.1 then
           "[" ++ o.server_addr.1 ++ "]:" ++ toString o.server_addr.2
         else o.server_addr.1 ++ ":" ++ toString o.server_addr.2),
       "--password", o.password,
       "--encrypt-method", o.encrypt_method]
      ++ o.extra_args.getD [] := by
  unfold ProxyOptions.to_launch_args
  rcases o with ⟨⟨a, p⟩, ⟨sa, sp⟩, pw, em, extra⟩
  cases a <;> cases extra <;> simp

/-- C9: the `Debug` rendering of a proxy-mode configuration is independent of
the password — two values differing only in `password` render identically —
and the password position always shows the fixed placeholder `*hidden*`. -/
theorem C9_password_redacted (o : ProxyOptions) (pw : String) :
    ProxyOptions.fmt_debug { o with password := pw } = ProxyOptions.fmt_debug o
    ∧ ∃ pre post,
        ProxyOptions.fmt_debug o = pre ++ ("password: " ++ password_omit) ++ post := by
  constructor
  · rfl
  · refine ⟨"ProxyOptions \x7b local_addr: (" ++ o.local_addr.1.debug_fmt ++ ", "
      ++ toString o.local_addr.2
      ++ "), server_addr: (" ++ debug_str o.server_addr.1 ++ ", "
      ++ toString o.server_addr.2 ++ "), ",
      ", encrypt_method: " ++ debug_str o.encrypt_method
      ++ ", extra_args: " ++ debug_opt_vec o.extra_args ++ " \x7d", ?_⟩
    simp only [ProxyOptions.fmt_debug, String.append_assoc]
    rfl

/-- `List.find?` distributes over append, preferring the left list. -/
theorem find_first_append {α : Type} (p : α → Bool) (l₁ l₂ : List α) :
    (l₁ ++ l₂).find? p =
      match l₁.find? p with
      | some x => some x
      | none => l₂.find? p := by
  induction l₁ with
  | nil => rfl
  | cons a l ih =>
    by_cases h : p a
    · simp [List.find?_cons_of_pos _ h]
    · simp only [List.cons_append, List.find?_cons_of_neg _ h, ih]

mutual

theorem profile_count_eq_length : ∀ (t : ProfileFolder),
    t.profile_count = t.get_profiles.length
  | .Profile _ => rfl
  | .Group (.mk n content) => by
    show profile_count_list content = (get_profiles_list content).length
    exact profile_count_list_eq_length content

theorem profile_count_list_eq_length : ∀ (ts : List ProfileFolder),
    profile_count_list ts = (get_profiles_list ts).length
  | [] => rfl
  | pf :: rest => by
    show pf.profile_count + profile_count_list rest
      = (pf.get_profiles ++ get_profiles_list rest).length
    rw [List.length_append, profile_count_eq_length pf,
      profile_count_list_eq_length rest]

end

mutual

theorem lookup_eq_find : ∀ (t : ProfileFolder) (name : String),
    t.lookup name = t.get_profiles.find? (fun p => p.metadata.display_name == name)
  | .Profile p, name => by
    show (if p.metadata.display_name == name then some p else none)
      = [p].find? (fun p => p.metadata.display_name == name)
    by_cases h : p.metadata.display_name == name <;> simp [List.find?, h]
  | .Group (.mk n content), name => by
    show lookup_list content name
      = (get_profiles_list content).find? (fun p => p.metadata.display_name == name)
    exact lookup_list_eq_find content name

theorem lookup_list_eq_find : ∀ (ts : List ProfileFolder) (name : String),
    lookup_list ts name
      = (get_profiles_list ts).find? (fun p => p.metadata.display_name == name)
  | [], _ => rfl
  | pf :: rest, name => by
    show (match pf.lookup name with
          | some p => some p
          | none => lookup_list rest name)
      = (pf.get_profiles ++ get_profiles_list rest).find?
          (fun p => p.metadata.display_name == name)
    rw [find_first_append, lookup_eq_find pf name, lookup_list_eq_find rest name]
    cases (pf.get_profiles.find? (fun p => p.metadata.display_name == name)) <;> rfl

end

/-- C8: for every profile tree node, `profile_count` equals the length of the
flattened profile list returned by `get_profiles`. -/
theorem C8_profile_count_eq_get_profiles_length (t : ProfileFolder) :
    t.profile_count = t.get_profiles.length :=
  profile_count_eq_length t

/-- C7: `lookup` returns exactly the first profile, in the depth-first
left-to-right order of `get_profiles`, whose display name equals the query;
in particular it returns a profile if and only if some flattened profile has
exactly that display name. -/
theorem C7_lookup_find_first (t : ProfileFolder) (name : String) :
    t.lookup name = t.get_profiles.find? (fun p => p.metadata.display_name == name)
    ∧ ((t.lookup name).isSome
        ↔ ∃ p ∈ t.get_profiles, p.metadata.display_name = name) := by
  refine ⟨lookup_eq_find t name, ?_⟩
  rw [lookup_eq_find t name]
  simp [List.find?_isSome]

theorem flat_names_nil : flat_names [] = [] := rfl

theorem flat_names_cons (cf : ProfileFolder) (rest : List ProfileFolder) :
    flat_names (cf :: rest) = cf.profile_names ++ flat_names rest := by
  simp [flat_names, get_profiles_list, ProfileFolder.profile_names]

mutual

theorem impl_invariant : ∀ (env : LoaderEnv) (path : String) (d : Dir)
    (seen : List String) (r : Option ProfileFolder) (seen' : List String),
    ProfileFolder.from_path_recurse_impl env path d seen = .ok (r, seen') →
    seen' = seen ++ option_names r
    ∧ (option_names r).Nodup
    ∧ (∀ n ∈ option_names r, n ∉ seen)
    ∧ (∀ pf, r = some pf → pf.groups_nonempty = true)
  | env, path, .mk dname files subdirs, seen, r, seen' => by
    intro h
    rw [ProfileFolder.from_path_recurse_impl] at h
    simp only [] at h
    split at h
    · -- ignored directory
      simp only [Except.ok.injEq, Prod.mk.injEq] at h
      obtain ⟨hr, hs⟩ := h
      subst hr; subst hs
      simp [option_names]
    · split at h
      · -- profile branch
        rename_i content hcfg
        split at h
        · simp at h
        · rename_i config hparse
          split at h
          · simp at h
          · rename_i hfresh
            split at h
            · simp at h
            · rename_i bin_path hbin
              simp only [Except.ok.injEq, Prod.mk.injEq] at h
              obtain ⟨hr, hs⟩ := h
              subst hr; subst hs
              refine ⟨rfl, ?_, ?_, ?_⟩
              · simp [option_names, ProfileFolder.profile_names,
                  ProfileFolder.get_profiles]
              · intro n hn
                simp only [option_names, ProfileFolder.profile_names,
                  ProfileFolder.get_profiles, List.map_cons, List.map_nil,
                  List.mem_singleton] at hn
                subst hn
                simpa using hfresh
              · intro pf hpf
                cases hpf
                rfl
      · -- no config file
        split at h
        · simp at h
        · -- group branch
          rename_i hfiles
          split at h
          · simp at h
          · rename_i sub seen2 hsub
            split at h
            · simp at h
            · rename_i hnonempty
              simp only [Except.ok.injEq, Prod.mk.injEq] at h
              obtain ⟨hr, hs⟩ := h
              subst hr; subst hs
              obtain ⟨h1, h2, h3, h4⟩ :=
                list_invariant env path subdirs seen sub seen2 hsub
              have hnames : option_names (some (.Group (.mk dname sub)))
                  = flat_names sub := by
                simp [option_names, ProfileFolder.profile_names,
                  ProfileFolder.get_profiles, flat_names]
              refine ⟨by rw [hnames]; exact h1, by rw [hnames]; exact h2,
                by rw [hnames]; exact h3, ?_⟩
              intro pf hpf
              cases hpf
              rw [ProfileFolder.groups_nonempty]
              simp only [Bool.and_eq_true]
              constructor
              · simpa using hnonempty
              · exact h4

theorem list_invariant : ∀ (env : LoaderEnv) (path : String) (ds : List Dir)
    (seen : List String) (pfs : List ProfileFolder) (seen' : List String),
    load_subdirs_impl env path ds seen = .ok (pfs, seen') →
    seen' = seen ++ flat_names pfs
    ∧ (flat_names pfs).Nodup
    ∧ (∀ n ∈ flat_names pfs, n ∉ seen)
    ∧ groups_nonempty_list pfs = true
  | env, path, [], seen, pfs, seen' => by
    intro h
    rw [load_subdirs_impl] at h
    simp only [Except.ok.injEq, Prod.mk.injEq] at h
    obtain ⟨hr, hs⟩ := h
    subst hr; subst hs
    simp [flat_names_nil, groups_nonempty_list]
  | env, path, d :: ds, seen, pfs, seen' => by
    intro h
    rw [load_subdirs_impl] at h
    split at h
    · -- child produced a node
      rename_i cf seen2 himpl
      split at h
      · simp at h
      · rename_i rest seen3 hrest
        simp only [Except.ok.injEq, Prod.mk.injEq] at h
        obtain ⟨hr, hs⟩ := h
        subst hr; subst hs
        obtain ⟨i1, i2, i3, i4⟩ := impl_invariant env (path ++ "/" ++ d.name) d
          seen (some cf) seen2 himpl
        obtain ⟨l1, l2, l3, l4⟩ := list_invariant env path ds seen2 rest seen3 hrest
        have hcf : option_names (some cf) = cf.profile_names := rfl
        rw [hcf] at i1 i2 i3
        constructor
        · rw [flat_names_cons, l1, i1, List.append_assoc]
        refine ⟨?_, ?_, ?_⟩
        · rw [flat_names_cons]
          rw [List.nodup_append]
          refine ⟨i2, l2, ?_⟩
          intro a ha hb
          have := l3 a hb
          rw [i1] at this
          exact this (List.mem_append_right seen ha)
        · rw [flat_names_cons]
          intro n hn
          rcases List.mem_append.mp hn with hl | hr
          · exact i3 n hl
          · intro hmem
            have := l3 n hr
            rw [i1] at this
            exact this (List.mem_append_left _ hmem)
        · rw [groups_nonempty_list]
          simp only [Bool.and_eq_true]
          exact ⟨i4 cf rfl, l4⟩
    · -- child ignored
      rename_i seen2 himpl
      obtain ⟨i1, _, _, _⟩ := impl_invariant env (path ++ "/" ++ d.name) d
        seen none seen2 himpl
      simp only [option_names, List.append_nil] at i1
      rw [i1] at h
      exact list_invariant env path ds seen pfs seen' h
    · simp at h

end

/-- C10: `ConfigProfileSerde::try_into` succeeds exactly when all of
`display_name`, `pwd` and `ss_bin_path` are present, and the loader fills all
three with defaults before converting, so the `.unwrap()` after the
conversion (modelled as the `UnwrapFailure` outcome) can never fire. -/
theorem C10_try_into_never_panics (s : ConfigProfileSerde) (env : CfgLoaderEnv)
    (path : String) (d : Dir) :
    except_is_ok s.try_into
      = (s.display_name.isSome && s.pwd.isSome && s.ss_bin_path.isSome)
    ∧ is_unwrap_failure (ConfigFolder.from_path_recurse env path d) = false := by
  constructor
  · rcases s with ⟨dn, pw, bp, cp, ea⟩
    cases dn <;> cases pw <;> cases bp <;> rfl
  · rcases d with ⟨dname, files, subdirs⟩
    rw [ConfigFolder.from_path_recurse]
    cases hf : Dir.find_file (.mk dname files subdirs) PROFILE_DEF_FILE_NAME with
    | some content =>
      simp only []
      cases hp : env.parse_serde content with
      | error e => rfl
      | ok profile => rfl
    | none =>
      by_cases hfe : files.isEmpty
      · by_cases hs : (ConfigFolder.load_subdirs env path subdirs).isEmpty
        · simp [hfe, hs, is_unwrap_failure]
        · simp [hfe, hs, is_unwrap_failure]
      · simp [hfe, is_unwrap_failure]

/-- C2: in every tree returned by `from_path_recurse` the profile display
names are pairwise distinct; any subtree returned by the recursive worker
contributes only names absent from the incoming seen-names list; and a
profile directory whose resolved display name is already in the seen-names
list fails with `NameConflict` at that point. -/
theorem C2_global_name_uniqueness (env : LoaderEnv) (path : String) (d : Dir) :
    (∀ pf, ProfileFolder.from_path_recurse env path d = .ok pf →
      pf.profile_names.Nodup)
    ∧ (∀ seen r seen',
        ProfileFolder.from_path_recurse_impl env path d seen = .ok (r, seen') →
        ∀ n ∈ option_names r, n ∉ seen)
    ∧ (∀ seen content config,
        d.find_file LOAD_IGNORE_FILE_NAME = none →
        d.find_file CONFIG_FILE_NAME = some content →
        env.parse_config content = .ok config →
        (config.get_metadata_override).display_name.getD d.name ∈ seen →
        ProfileFolder.from_path_recurse_impl env path d seen
          = .error (.NameConflict
              ((config.get_metadata_override).display_name.getD d.name))) := by
  refine ⟨?_, ?_, ?_⟩
  · intro pf h
    rw [ProfileFolder.from_path_recurse] at h
    cases himpl : ProfileFolder.from_path_recurse_impl env path d [] with
    | error e => rw [himpl] at h; cases h
    | ok pr =>
      obtain ⟨r, seen'⟩ := pr
      rw [himpl] at h
      cases r with
      | none => simp at h
      | some pf2 =>
        simp at h
        obtain ⟨-, h2, -, -⟩ := impl_invariant env path d [] (some pf2) seen' himpl
        rw [← h]
        simpa [option_names] using h2
  · intro seen r seen' h
    exact (impl_invariant env path d seen r seen' h).2.2.1
  · intro seen content config hign hcfg hparse hmem
    rcases d with ⟨dn, fs, ds⟩
    simp only [Dir.name] at hmem
    rw [ProfileFolder.from_path_recurse_impl]
    simp [hign, hcfg, hparse, Dir.name, hmem]

/-- Witness for C2 at a concrete two-profile tree. -/
theorem C2_witness :
    C2W_tree.profile_names.Nodup
    ∧ ProfileFolder.from_path_recurse_impl C2W_env "/cfg/root/a" C2W_dirA ["alpha"]
        = .error (.NameConflict "alpha") :=
  ⟨(C2_global_name_uniqueness C2W_env "/cfg/root" C2W_root).1 C2W_tree rfl,
   (C2_global_name_uniqueness C2W_env "/cfg/root/a" C2W_dirA).2.2
     ["alpha"] "pa" C2W_configA rfl rfl rfl (by decide)⟩

/-- Counterexample to C3 as stated: in `ConfigFolder::from_path_recurse`
(cited by the claim), a child whose load fails with `NoProfileDef` is
silently skipped and a group node omitting it is returned to the caller;
the first child error is not propagated. -/
theorem C3_counterexample :
    ConfigFolder.from_path_recurse C3X_env "/cfg/root" C3X_root
      = .ok (.Group (.mk "root"
          [.Profile ⟨"good", "/cfg/root/good", "sslocal", none, none⟩]))
    ∧ ConfigFolder.from_path_recurse C3X_env "/cfg/root/bad" C3X_bad
      = .error (.NoProfileDef "/cfg/root/bad") :=
  ⟨rfl, rfl⟩

/-- C3 (amended): in the ssgtk profile loader (`ProfileFolder`), the first
error produced by a child aborts the group construction immediately — the
remaining siblings are not traversed and the error is returned as is. -/
theorem C3_amended_fail_fast (env : LoaderEnv) (path : String) (pre : List Dir)
    (d : Dir) (post : List Dir) (seen seen' : List String)
    (pfs : List ProfileFolder) (e : ProfileLoadError)
    (h1 : load_subdirs_impl env path pre seen = .ok (pfs, seen'))
    (h2 : ProfileFolder.from_path_recurse_impl env (path ++ "/" ++ d.name) d seen'
      = .error e) :
    load_subdirs_impl env path (pre ++ d :: post) seen = .error e := by
  induction pre generalizing seen pfs with
  | nil =>
    rw [load_subdirs_impl] at h1
    simp only [Except.ok.injEq, Prod.mk.injEq] at h1
    obtain ⟨-, hs⟩ := h1
    rw [List.nil_append, load_subdirs_impl, hs, h2]
  | cons p rest ih =>
    rw [load_subdirs_impl] at h1
    rw [List.cons_append, load_subdirs_impl]
    cases hc : ProfileFolder.from_path_recurse_impl env (path ++ "/" ++ p.name) p seen with
    | error e2 => simp only [hc] at h1; simp at h1
    | ok pr =>
      obtain ⟨r, seen2⟩ := pr
      simp only [hc] at h1 ⊢
      cases r with
      | none =>
        exact ih seen2 pfs h1
      | some cf =>
        cases hrest : load_subdirs_impl env path rest seen2 with
        | error e2 => simp only [hrest] at h1; simp at h1
        | ok pr2 =>
          obtain ⟨rest2, seen3⟩ := pr2
          simp only [hrest, Except.ok.injEq, Prod.mk.injEq] at h1
          obtain ⟨-, hs⟩ := h1
          rw [hs] at hrest
          have hfail := ih seen2 rest2 hrest
          simp [hfail]

/-- Witness for C3 (amended): the parse error of the first child is the
result of the whole group loop, with a sibling still pending. -/
theorem C3_witness :
    load_subdirs_impl C3W_env "/r" ([] ++ C3W_bad :: [C3W_post]) []
      = .error (.ConfigParseError "bad") :=
  C3_amended_fail_fast C3W_env "/r" [] C3W_bad [C3W_post] [] [] []
    (.ConfigParseError "bad") rfl rfl

/-- C4: the loader classifies a directory with this exact precedence: an
ignore marker wins over everything (no node, no error); otherwise a profile
marker makes the directory a single Profile leaf, unaffected by any other
files present; otherwise any regular file causes `NoConfigFile`; otherwise
the directory is treated as a group. -/
theorem C4_classification (env : LoaderEnv) (path : String) (d : Dir)
    (seen : List String) :
    ((d.find_file LOAD_IGNORE_FILE_NAME).isSome = true →
      ProfileFolder.from_path_recurse_impl env path d seen = .ok (none, seen))
    ∧ (∀ content, d.find_file LOAD_IGNORE_FILE_NAME = none →
        d.find_file CONFIG_FILE_NAME = some content →
        (ProfileFolder.from_path_recurse_impl env path d seen
          = ProfileFolder.from_path_recurse_impl env path
              (.mk d.name [(CONFIG_FILE_NAME, content)] d.subdirs) seen
        ∧ ∀ r seen', ProfileFolder.from_path_recurse_impl env path d seen
            = .ok (some r, seen') → ∃ p, r = .Profile p))
    ∧ (d.find_file LOAD_IGNORE_FILE_NAME = none →
        d.find_file CONFIG_FILE_NAME = none → d.files ≠ [] →
        ProfileFolder.from_path_recurse_impl env path d seen
          = .error (.NoConfigFile path))
    ∧ (d.find_file LOAD_IGNORE_FILE_NAME = none →
        d.find_file CONFIG_FILE_NAME = none → d.files = [] →
        ∀ r seen', ProfileFolder.from_path_recurse_impl env path d seen
          = .ok (some r, seen') → ∃ pfs, r = .Group (.mk d.name pfs)) := by
  rcases d with ⟨dn, fs, ds⟩
  refine ⟨?_, ?_, ?_, ?_⟩
  · intro h
    rw [ProfileFolder.from_path_recurse_impl]
    simp [h]
  · intro content hign hcfg
    constructor
    · rw [ProfileFolder.from_path_recurse_impl, ProfileFolder.from_path_recurse_impl]
      simp only [Dir.name, Dir.subdirs]
      have hign2 : Dir.find_file (.mk dn [(CONFIG_FILE_NAME, content)] ds)
          LOAD_IGNORE_FILE_NAME = none := rfl
      have hcfg2 : Dir.find_file (.mk dn [(CONFIG_FILE_NAME, content)] ds)
          CONFIG_FILE_NAME = some content := rfl
      simp [hign, hcfg, hign2, hcfg2]
    · intro r seen' h
      rw [ProfileFolder.from_path_recurse_impl] at h
      simp only [hign, hcfg, Option.isSome_none, Bool.false_eq_true, if_false] at h
      cases hp : env.parse_config content with
      | error e => simp only [hp] at h; simp at h
      | ok config =>
        simp only [hp] at h
        split at h
        · simp at h
        · split at h
          · simp at h
          · simp only [Except.ok.injEq, Prod.mk.injEq, Option.some.injEq] at h
            obtain ⟨hr, -⟩ := h
            subst hr
            exact ⟨_, rfl⟩
  · intro hign hcfg hne
    rw [ProfileFolder.from_path_recurse_impl]
    simp only [Dir.files] at hne
    cases fs with
    | nil => exact absurd rfl hne
    | cons f fs' => simp [hign, hcfg]
  · intro hign hcfg hnil r seen' h
    simp only [Dir.files] at hnil
    subst hnil
    rw [ProfileFolder.from_path_recurse_impl] at h
    simp only [hign, hcfg, Option.isSome_none, Bool.false_eq_true, if_false] at h
    simp only [List.isEmpty_nil, Bool.not_true, Bool.false_eq_true, if_false] at h
    split at h
    · simp at h
    · rename_i sub seen2 hsub
      split at h
      · simp at h
      · simp only [Except.ok.injEq, Prod.mk.injEq, Option.some.injEq] at h
        obtain ⟨hr, -⟩ := h
        subst hr
        exact ⟨sub, rfl⟩

/-- Witness for C4 at concrete directories exercising all four precedence
rules. -/
theorem C4_witness :
    ProfileFolder.from_path_recurse_impl C4W_env "/t/i" C4W_ign [] = .ok (none, [])
    ∧ ProfileFolder.from_path_recurse_impl C4W_env "/t/p" C4W_prof []
        = ProfileFolder.from_path_recurse_impl C4W_env "/t/p"
            (.mk C4W_prof.name [(CONFIG_FILE_NAME, "pa")] C4W_prof.subdirs) []
    ∧ (∃ p, C4W_prof_result = ProfileFolder.Profile p)
    ∧ ProfileFolder.from_path_recurse_impl C4W_env "/t/n" C4W_nocfg []
        = .error (.NoConfigFile "/t/n")
    ∧ (∃ pfs, C4W_grp_result = ProfileFolder.Group (.mk C4W_grp.name pfs)) :=
  ⟨(C4_classification C4W_env "/t/i" C4W_ign []).1 rfl,
   ((C4_classification C4W_env "/t/p" C4W_prof []).2.1 "pa" rfl rfl).1,
   ((C4_classification C4W_env "/t/p" C4W_prof []).2.1 "pa" rfl rfl).2
     C4W_prof_result ["p"] rfl,
   (C4_classification C4W_env "/t/n" C4W_nocfg []).2.2.1 rfl rfl (by decide),
   (C4_classification C4W_env "/t/g" C4W_grp []).2.2.2 rfl rfl rfl
     C4W_grp_result ["p"] rfl⟩

/-- C5: a group directory that collects zero child nodes fails with
`EmptyGroup`; a directory containing only an ignore marker yields no node and
no error as a child but an `EmptyGroup` error as the sole root; and every
group node of a successfully returned tree has non-empty children. -/
theorem C5_empty_group (env : LoaderEnv) (path : String) :
    (∀ dname c seen, ProfileFolder.from_path_recurse_impl env path
        (.mk dname [(LOAD_IGNORE_FILE_NAME, c)] []) seen = .ok (none, seen))
    ∧ (∀ dname c, ProfileFolder.from_path_recurse env path
        (.mk dname [(LOAD_IGNORE_FILE_NAME, c)] []) = .error (.EmptyGroup path))
    ∧ (∀ dname subdirs seen seen2,
        load_subdirs_impl env path subdirs seen = .ok ([], seen2) →
        ProfileFolder.from_path_recurse_impl env path (.mk dname [] subdirs) seen
          = .error (.EmptyGroup path))
    ∧ (∀ d pf, ProfileFolder.from_path_recurse env path d = .ok pf →
        pf.groups_nonempty = true) := by
  refine ⟨?_, ?_, ?_, ?_⟩
  · intro dname c seen
    rfl
  · intro dname c
    rfl
  · intro dname subdirs seen seen2 h
    rw [ProfileFolder.from_path_recurse_impl]
    simp [Dir.find_file, Dir.files, List.find?, h]
  · intro d pf h
    rw [ProfileFolder.from_path_recurse] at h
    cases himpl : ProfileFolder.from_path_recurse_impl env path d [] with
    | error e => rw [himpl] at h; cases h
    | ok pr =>
      obtain ⟨r, seen'⟩ := pr
      rw [himpl] at h
      cases r with
      | none => simp at h
      | some pf2 =>
        simp at h
        obtain ⟨-, -, -, h4⟩ := impl_invariant env path d [] (some pf2) seen' himpl
        rw [← h]
        exact h4 pf2 rfl

/-- Witness for C5: a group whose only child is ignored fails with
`EmptyGroup`, and a successfully loaded tree satisfies `groups_nonempty`. -/
theorem C5_witness :
    ProfileFolder.from_path_recurse_impl C5W_env "/w/g"
        (.mk "g" [] [C5W_ign]) [] = .error (.EmptyGroup "/w/g")
    ∧ (ProfileFolder.Profile
        ⟨⟨"p", "/w/p", "/usr/bin/sslocal"⟩, C5W_config⟩).groups_nonempty = true :=
  ⟨(C5_empty_group C5W_env "/w/g").2.2.1 "g" [C5W_ign] [] [] rfl,
   (C5_empty_group C5W_env "/w/p").2.2.2 (.mk "p" [("profile.yaml", "x")] [])
     (.Profile ⟨⟨"p", "/w/p", "/usr/bin/sslocal"⟩, C5W_config⟩) rfl⟩

/-- Counterexample to C6 as stated: with a relative override `rel`, the
loader stores the override verbatim, so the resolved working directory is
not an absolute (hence not a canonicalized) path. -/
theorem C6_counterexample :
    ProfileFolder.from_path_recurse C6X_env "/cfg/prof" C6X_dir
      = .ok (.Profile ⟨⟨"prof", "rel", "/usr/bin/sslocal"⟩, C6X_config⟩)
    ∧ is_absolute_path "rel" = false :=
  ⟨rfl, rfl⟩

/-- C6 (amended): the ssgtk profile loader stores the override's pwd exactly
as written when one is given and the canonical profile directory path
otherwise; the older config loader instead pushes the override onto the
canonical profile directory path.  Only the no-override case is guaranteed
to be the canonicalized directory path. -/
theorem C6_amended_pwd_resolution :
    (∀ (env : LoaderEnv) (path : String) (d : Dir) (seen : List String)
        (content : String) (config : ProfileConfig) (p : Profile)
        (seen' : List String),
      d.find_file LOAD_IGNORE_FILE_NAME = none →
      d.find_file CONFIG_FILE_NAME = some content →
      env.parse_config content = .ok config →
      ProfileFolder.from_path_recurse_impl env path d seen
        = .ok (some (.Profile p), seen') →
      p.metadata.pwd = (config.get_metadata_override).pwd.getD path)
    ∧ (∀ (env2 : CfgLoaderEnv) (path : String) (d : Dir) (content : String)
        (serde : ConfigProfileSerde) (cp : ConfigProfile),
      d.find_file PROFILE_DEF_FILE_NAME = some content →
      env2.parse_serde content = .ok serde →
      ConfigFolder.from_path_recurse env2 path d = .ok (.Profile cp) →
      cp.pwd = (match serde.pwd with
                | none => path
                | some q => path_push path q)) := by
  constructor
  · intro env path d seen content config p seen' hign hcfg hparse h
    rcases d with ⟨dn, fs, ds⟩
    rw [ProfileFolder.from_path_recurse_impl] at h
    simp only [hign, hcfg, hparse, Option.isSome_none, Bool.false_eq_true,
      if_false] at h
    split at h
    · simp at h
    · split at h
      · simp at h
      · simp only [Except.ok.injEq, Prod.mk.injEq, Option.some.injEq,
          ProfileFolder.Profile.injEq] at h
        obtain ⟨hp, -⟩ := h
        rw [← hp]
  · intro env2 path d content serde cp hdef hparse h
    rcases d with ⟨dn, fs, ds⟩
    rw [ConfigFolder.from_path_recurse] at h
    simp only [hdef, hparse] at h
    simp only [ConfigProfileSerde.try_into] at h
    simp only [Except.ok.injEq, ConfigFolder.Profile.injEq] at h
    rw [← h]

/-- Witness for C6 (amended) at concrete profiles of both loaders. -/
theorem C6_witness :
    C6W_p.metadata.pwd = (C6W_config.get_metadata_override).pwd.getD "/pf/d"
    ∧ C6W_cp.pwd = (match C6W_serde.pwd with
                    | none => "/cl/c"
                    | some q => path_push "/cl/c" q) :=
  ⟨C6_amended_pwd_resolution.1 C6W_env "/pf/d" C6W_dir [] "x" C6W_config C6W_p
      ["d"] rfl rfl rfl rfl,
   C6_amended_pwd_resolution.2 C6W_cenv "/cl/c" C6W_cdir "s" C6W_serde C6W_cp
      rfl rfl rfl⟩
